import Mathlib

/-!
Shallow embedding of the bank-statement classification pipeline of
`backend/routers/bank_import.py`: the rule-based classifier
(`BankCategorizationService._rule_based_categorize`), the post-AI validator
(`BankCategorizationService._post_ai_validation`), the AI merge and fallback
logic (`BankCategorizationService.categorize_transactions`), and the summary
aggregation performed in the `parse_bank_csv` endpoint.

Descriptions are strings; amounts are optional rationals (the Python floats of
the claims are exact decimals, so ℚ is used for amounts and confidences).
Python string primitives that must evaluate inside the kernel (`str.lower`,
substring containment) are re-implemented by structural recursion on the
character list.
-/

namespace BankImport

/-- ASCII lower-casing of one character, the fragment of Python `str.lower`
exercised by the classifier's keyword patterns. -/
def lowerChar (c : Char) : Char :=
  if 65 ≤ c.toNat ∧ c.toNat ≤ 90 then Char.ofNat (c.toNat + 32) else c

/-- Python `s.lower()` (ASCII fragment). -/
def lowerS (s : String) : String := String.mk (s.data.map lowerChar)

/-- Does the first list occur at the start of the second? -/
def beginsWith : List Char → List Char → Bool
  | [], _ => true
  | _ :: _, [] => false
  | n :: ns, h :: hs => n == h && beginsWith ns hs

/-- Does `needle` occur somewhere inside the second list? -/
def containsSub (needle : List Char) : List Char → Bool
  | [] => needle.isEmpty
  | h :: hs => beginsWith needle (h :: hs) || containsSub needle hs

/-- Python substring containment `needle in hay`. -/
def substr (needle hay : String) : Bool := containsSub needle.data hay.data

/-- Python `s.split(sep)[0]` (a split never yields an empty list, so index 0
is the head). -/
def splitHead (s sep : String) : String := (s.splitOn sep).headD s

/-- Python `s.split(sep)[-1]`. -/
def splitLast (s sep : String) : String := (s.splitOn sep).getLastD s

/-- A parsed bank transaction: the dict built by `parse_csv` together with the
classification fields of the `BankTransaction` model (with that model's
defaults). -/
structure Tx where
  index : Nat := 0
  transaction_date : String := ""
  description1 : String := ""
  description2 : String := ""
  amount_cad : Option ℚ := none
  amount_usd : Option ℚ := none
  type : String := "expense"
  category : String := "uncategorized"
  payment_source : String := "bank_checking"
  vendor_name : String := ""
  notes : String := ""
  confidence : ℚ := 0
deriving DecidableEq

/-- Python truthiness filter used by `or` on an optional amount: `None` and
`0` are falsy. -/
def truthy (a : Option ℚ) : Option ℚ :=
  a.bind fun x => if x = 0 then none else some x

/-- Python `a or b or 0` on two optional amounts. -/
def effAmount (cad usd : Option ℚ) : ℚ :=
  match truthy cad with
  | some a => a
  | none =>
    match truthy usd with
    | some a => a
    | none => 0

/-- Python `tx.get("amount_cad") or tx.get("amount_usd") or 0`, computed at
three places of the source (rule classifier, validator, aggregation). -/
def effectiveAmount (tx : Tx) : ℚ := effAmount tx.amount_cad tx.amount_usd

/-- Owner and family names recognised in the secondary description. -/
def ownerNames : List String := ["yeliz bektas", "ozan bektas", "yeliz", "bektas"]

/-- Government tax-refund keywords. -/
def gstKeywords : List String :=
  ["gst", "hst", "receiver general", "rec gen", "canada revenue", "cra"]

/-- Fuel-brand keywords of the expense cascade. -/
def fuelKeywords : List String := ["petro-canada", "shell", "esso", "husky", "flying j"]

/-- Meal keywords of the expense cascade. -/
def mealKeywords : List String := ["denny", "tim horton", "mcdonald", "subway", "restaurant"]

/-- Python `any(kw in desc1 or kw in desc2 for kw in kws)`. -/
def anyKw (kws : List String) (d1 d2 : String) : Bool :=
  kws.any fun kw => substr kw d1 || substr kw d2

/-- Python `any(name in desc2 for name in names)`. -/
def anyName (names : List String) (d : String) : Bool :=
  names.any fun n => substr n d

/-- One record's pass of `_post_ai_validation` (the body of its loop over the
batch): forcibly overrides the classification for patterns that must be
classified correctly regardless of what the AI said.  Each arm only rewrites
the record when its current `type` differs from the mandated one. -/
def validateTx (tx : Tx) : Tx :=
  let d1 := lowerS tx.description1
  let d2 := lowerS tx.description2
  if substr "funds transfer" d1 || substr "funds transfer" d2 then
    if tx.type ≠ "transfer" then
      { tx with type := "transfer", category := "transfer",
                vendor_name := "Internal Transfer",
                notes := "Inter-account funds transfer" }
    else tx
  else if substr "payment - thank you" d1 || substr "paiement - merci" d1
      || substr "payment - thank you" d2 then
    if tx.type ≠ "transfer" then
      { tx with type := "transfer", category := "transfer",
                vendor_name := "Credit Card Payment",
                notes := "Credit card bill payment (not income/expense)" }
    else tx
  else if substr "online banking transfer" d1 then
    if tx.type ≠ "transfer" then
      { tx with type := "transfer", category := "transfer",
                vendor_name := "Internal Transfer",
                notes := "Online banking transfer" }
    else tx
  else if substr "credit memo" d1
      && (substr "exchange" d2 || substr "transfer" d2 || substr "client request" d2) then
    if tx.type ≠ "transfer" then
      { tx with type := "transfer", category := "transfer",
                vendor_name := "RBC",
                notes := "Bank credit memo / internal adjustment" }
    else tx
  else if substr "cash withdrawal" d1 || substr "atm withdrawal" d1 then
    if tx.type ≠ "owner_draw" then
      { tx with type := "owner_draw", category := "owner_draw",
                vendor_name := "Cash Withdrawal",
                notes := "Cash withdrawal from business account (owner draw)" }
    else tx
  else if substr "debit memo" d1 && (substr "owner" d2 || substr "draw" d2) then
    if tx.type ≠ "owner_draw" then
      { tx with type := "owner_draw", category := "owner_draw",
                vendor_name := "Owner Draw", notes := "Owner withdrawal" }
    else tx
  else if anyKw gstKeywords d1 d2 then
    if 0 < effectiveAmount tx ∧ tx.type ≠ "tax_refund" then
      { tx with type := "tax_refund", category := "tax_refund",
                vendor_name := "CRA / Receiver General",
                notes := "Government tax refund (GST/HST ITC) - NOT revenue" }
    else tx
  else if substr "fed govt" d1 || substr "fed govt" d2 then
    if 0 < effectiveAmount tx ∧ tx.type ≠ "tax_refund" then
      { tx with type := "tax_refund", category := "tax_refund",
                vendor_name := "Federal Government",
                notes := "Government refund/credit - NOT revenue" }
    else tx
  else if (substr "e-transfer" d1 || substr "autodeposit" d1) && anyName ownerNames d2 then
    if 0 < effectiveAmount tx then
      if tx.type ≠ "transfer" then
        { tx with type := "transfer", category := "transfer",
                  vendor_name := "Owner Contribution",
                  notes := "Owner e-Transfer to business (not revenue)" }
      else tx
    else
      if tx.type ≠ "owner_draw" then
        { tx with type := "owner_draw", category := "owner_draw",
                  vendor_name :=
                    if tx.description2 ≠ "" then splitHead tx.description2 "," else "Owner",
                  notes := "Personal e-Transfer (owner draw)" }
      else tx
  else tx

/-- `_post_ai_validation` over a batch: the loop mutates each record
independently, so it is the map of `validateTx`. -/
def post_ai_validation (txs : List Tx) : List Tx := txs.map validateTx

/-- The trailing `tx["confidence"] = 0.7` assignment of
`_rule_based_categorize`, applied to every record after its cascade. -/
def withRuleConf (tx : Tx) : Tx := { tx with confidence := 0.7 }

/-- One record's pass of `_rule_based_categorize` (the body of its loop):
the fallback rule-based categorization.  Every record finally gets
`confidence = 0.7`. -/
def ruleTx (tx : Tx) : Tx :=
  let d1 := lowerS tx.description1
  let d2 := lowerS tx.description2
  let amount := effectiveAmount tx
  withRuleConf <|
    if substr "funds transfer" d1 || substr "funds transfer" d2 then
      { tx with type := "transfer", category := "transfer",
                vendor_name := "Internal Transfer",
                notes := "Inter-account funds transfer" }
    else if substr "payment - thank you" d1 || substr "paiement - merci" d1 then
      { tx with type := "transfer", category := "transfer",
                vendor_name := "Credit Card Payment",
                notes := "Credit card bill payment (not income/expense)" }
    else if substr "online banking transfer" d1 then
      { tx with type := "transfer", category := "transfer",
                vendor_name := "Internal Transfer",
                notes := "Online banking transfer" }
    else if substr "cash withdrawal" d1 || substr "atm withdrawal" d1 then
      { tx with type := "owner_draw", category := "owner_draw",
                vendor_name := "Cash Withdrawal",
                notes := "Cash withdrawal from business account" }
    else if substr "debit memo" d1 && (substr "owner" d2 || substr "draw" d2) then
      { tx with type := "owner_draw", category := "owner_draw",
                vendor_name := "Owner Draw", notes := "Owner withdrawal" }
    else if (substr "e-transfer" d1 || substr "autodeposit" d1) && anyName ownerNames d2 then
      if 0 < amount then
        { tx with type := "transfer", category := "transfer",
                  vendor_name := "Owner Contribution",
                  notes := "Owner e-Transfer to business (not revenue)" }
      else
        { tx with type := "owner_draw", category := "owner_draw",
                  vendor_name :=
                    if tx.description2 ≠ "" then splitHead tx.description2 "," else "Owner",
                  notes := "Personal e-Transfer (owner draw)" }
    else if substr "credit memo" d1
        && (substr "exchange" d2 || substr "transfer" d2 || substr "client request" d2) then
      { tx with type := "transfer", category := "transfer",
                vendor_name := "RBC",
                notes := "Bank credit memo / internal adjustment" }
    else if 0 < amount ∧ anyKw gstKeywords d1 d2 then
      { tx with type := "tax_refund", category := "tax_refund",
                vendor_name := "CRA / Receiver General",
                notes := "Government tax refund (GST/HST ITC) - NOT revenue" }
    else if 0 < amount ∧ (substr "fed govt" d1 || substr "fed govt" d2) then
      { tx with type := "tax_refund", category := "tax_refund",
                vendor_name := "Federal Government",
                notes := "Government refund/credit - NOT revenue" }
    else if 0 < amount then
      if substr "j d factors" d2 then
        { tx with type := "income", category := "income",
                  vendor_name := "J D Factors", notes := "Factoring payment received" }
      else if substr "credit memo" d1 then
        { tx with type := "income", category := "income",
                  vendor_name := "RBC", notes := "Bank credit" }
      else if substr "cash back reward" d1 then
        { tx with type := "income", category := "income",
                  vendor_name := "RBC", notes := "Cash back reward" }
      else if substr "deposit" d1 then
        { tx with type := "income", category := "income",
                  vendor_name := tx.description1, notes := "Deposit" }
      else if substr "misc payment" d1 then
        { tx with type := "income", category := "income",
                  vendor_name := if tx.description2 ≠ "" then tx.description2 else tx.description1,
                  notes := "Payment received" }
      else if substr "e-transfer" d1 || substr "autodeposit" d1 then
        { tx with type := "income", category := "income",
                  vendor_name :=
                    if tx.description2 ≠ "" then (splitLast tx.description2 " - ").trim
                    else tx.description1,
                  notes := "e-Transfer received" }
      else
        { tx with type := "income", category := "income", vendor_name := tx.description1 }
    else
      if substr "auto insurance" d1 || substr "icbc" d2 then
        { tx with type := "expense", payment_source := "bank_checking",
                  category := "insurance", vendor_name := "ICBC",
                  notes := "Auto insurance premium" }
      else if substr "insurance" d1 && substr "cafo" d2 then
        { tx with type := "expense", payment_source := "bank_checking",
                  category := "insurance", vendor_name := "CAFO Inc",
                  notes := "Insurance premium" }
      else if substr "direct deposits" d1 || substr "pay emp" d2 then
        { tx with type := "expense", payment_source := "bank_checking",
                  category := "payroll", vendor_name := "Employee Payroll",
                  notes := "Employee payment" }
      else if substr "commercial taxes" d1 || substr "emptx" d2 then
        { tx with type := "expense", payment_source := "bank_checking",
                  category := "other_expenses", vendor_name := "CRA",
                  notes := "Tax remittance" }
      else if substr "monthly fee" d1 || substr "electronic transaction fee" d1
          || substr "service fee" d1 then
        { tx with type := "expense", payment_source := "bank_checking",
                  category := "office_admin", vendor_name := "RBC", notes := "Bank fee" }
      else if substr "items on deposit fee" d1 || substr "in branch cash deposited fee" d1 then
        { tx with type := "expense", payment_source := "bank_checking",
                  category := "office_admin", vendor_name := "RBC", notes := "Bank fee" }
      else if substr "online banking wire fee" d1 then
        { tx with type := "expense", payment_source := "bank_checking",
                  category := "office_admin", vendor_name := "RBC",
                  notes := "Wire transfer fee" }
      else if substr "business pad" d1 && substr "tch canada" d2 then
        { tx with type := "expense", payment_source := "bank_checking",
                  category := "rent_lease", vendor_name := "TCH Canada",
                  notes := "Truck/equipment lease payment" }
      else if substr "e-transfer sent" d1 || substr "e-transfer" d1 then
        { tx with type := "expense", payment_source := "e_transfer",
                  category := "other_expenses",
                  vendor_name :=
                    if tx.description2 ≠ "" then splitHead tx.description2 "," else "",
                  notes := "e-Transfer payment" }
      else if substr "interac e-transfer fee" d1 then
        { tx with type := "expense", payment_source := "bank_checking",
                  category := "office_admin", vendor_name := "RBC",
                  notes := "e-Transfer fee" }
      else if substr "bill payment" d1 then
        { tx with type := "expense", payment_source := "bank_checking",
                  category := "office_admin",
                  vendor_name :=
                    if tx.description2 ≠ "" then tx.description2.replace "PAY-" "" else "",
                  notes := "Bill payment" }
      else if substr "prov/local gvt" d1 then
        { tx with type := "expense", payment_source := "bank_checking",
                  category := "other_expenses", vendor_name := tx.description2,
                  notes := "Government payment" }
      else if substr "online banking wire payment" d1 then
        { tx with type := "expense", payment_source := "bank_checking",
                  category := "other_expenses",
                  vendor_name := if tx.description2 ≠ "" then tx.description2 else "Wire Payment",
                  notes := "Wire payment" }
      else if substr "purchase interest" d1 then
        { tx with type := "expense", payment_source := "bank_checking",
                  category := "loan_interest", vendor_name := "RBC",
                  notes := "Credit card / loan interest" }
      else if anyKw fuelKeywords d1 d2 then
        { tx with type := "expense", payment_source := "bank_checking",
                  category := "fuel",
                  vendor_name :=
                    if substr " - " tx.description1 then (splitHead tx.description1 " - ").trim
                    else tx.description1,
                  notes := "Fuel purchase" }
      else if anyKw mealKeywords d1 d2 then
        { tx with type := "expense", payment_source := "bank_checking",
                  category := "meals_entertainment",
                  vendor_name :=
                    if substr " - " tx.description1 then (splitHead tx.description1 " - ").trim
                    else tx.description1,
                  notes := "Meal/food purchase" }
      else
        { tx with type := "expense", payment_source := "bank_checking",
                  category := "uncategorized", vendor_name := tx.description1 }

/-- `_rule_based_categorize` over a batch. -/
def rule_based_categorize (txs : List Tx) : List Tx := txs.map ruleTx

/-- One element of the AI's parsed JSON array.  All classification fields are
optional because the merge loop reads them with `ai_data.get(key, default)`. -/
structure AiItem where
  index : Nat
  ai_type : Option String := none
  ai_category : Option String := none
  ai_payment_source : Option String := none
  ai_vendor_name : Option String := none
  ai_notes : Option String := none
  ai_confidence : Option ℚ := none
deriving DecidableEq

/-- Lookup in `cat_map`, the dict comprehension keyed by `item["index"]`:
a later element with the same index wins. -/
def catMapGet (items : List AiItem) (i : Nat) : Option AiItem :=
  items.foldl (fun acc it => if it.index = i then some it else acc) none

/-- The field-by-field merge of the AI output into one record (the body of the
merge loop of `categorize_transactions`), with the Python defaults for fields
missing from the AI element; a record whose index has no AI element gets all
defaults. -/
def mergeTx (items : List AiItem) (tx : Tx) : Tx :=
  let ai := (catMapGet items tx.index).getD (AiItem.mk tx.index none none none none none none)
  { tx with
    type := ai.ai_type.getD "expense",
    category := ai.ai_category.getD "uncategorized",
    payment_source := ai.ai_payment_source.getD "bank_checking",
    vendor_name := ai.ai_vendor_name.getD tx.description1,
    notes := ai.ai_notes.getD "",
    confidence := ai.ai_confidence.getD 0.5 }

/-- Outcome of the Gemini call followed by JSON parsing of its response:
`failure` covers both an exception raised by the call and a response whose
structured output cannot be parsed (`json.JSONDecodeError`). -/
inductive AiOutcome where
  | failure : AiOutcome
  | success : List AiItem → AiOutcome
deriving DecidableEq

/-- `categorize_transactions`: with no model configured or an empty batch the
rule-based classifier runs directly; when the AI call raises or its response
fails JSON parsing, the whole batch falls back to the rule-based classifier;
on success the AI fields are merged and `_post_ai_validation` runs. -/
def categorize_transactions (hasModel : Bool) (ai : AiOutcome) (txs : List Tx) : List Tx :=
  if !hasModel || txs.isEmpty then rule_based_categorize txs
  else
    match ai with
    | .failure => rule_based_categorize txs
    | .success items => post_ai_validation (txs.map (mergeTx items))

/-- Round half to even to an integer, Python `round`. -/
def pyRound (q : ℚ) : ℤ :=
  let f := ⌊q⌋
  if q - f < 1/2 then f
  else if 1/2 < q - f then f + 1
  else if f % 2 = 0 then f else f + 1

/-- Python `round(x, 2)`, applied by `parse_bank_csv` to each total at the
output boundary. -/
def round2 (q : ℚ) : ℚ := (pyRound (q * 100) : ℚ) / 100

/-- The `summary` dict built by `parse_bank_csv`. -/
structure Summary where
  total_transactions : Nat
  total_income : ℚ
  total_expenses : ℚ
  total_transfers : ℚ
  total_tax_refunds : ℚ
  expense_count : Nat
  income_count : Nat
  transfer_count : Nat
  tax_refund_count : Nat
  account_currency : String
deriving DecidableEq

/-- Is there a record with a present, nonzero CAD amount
(`tx.get("amount_cad") is not None and tx.get("amount_cad") != 0`)? -/
def hasNonzeroCad (txs : List Tx) : Bool :=
  txs.any fun tx => decide (tx.amount_cad.getD 0 ≠ 0)

/-- Is there a record with a present, nonzero USD amount? -/
def hasNonzeroUsd (txs : List Tx) : Bool :=
  txs.any fun tx => decide (tx.amount_usd.getD 0 ≠ 0)

/-- The `account_currency` conditional expression of `parse_bank_csv`. -/
def accountCurrency (txs : List Tx) : String :=
  if hasNonzeroUsd txs && !hasNonzeroCad txs then "USD"
  else if hasNonzeroCad txs && !hasNonzeroUsd txs then "CAD"
  else "MIXED"

/-- The running total accumulated by `parse_bank_csv`'s aggregation loop for
the bucket whose membership test is `p` (the loop adds `abs(amount)` of each
record to the single bucket matching its type, so each bucket's final value is
an independent fold). -/
def bucket (p : Tx → Prop) [DecidablePred p] (txs : List Tx) : ℚ :=
  txs.foldl (fun s tx => if p tx then s + |effectiveAmount tx| else s) 0

/-- `parse_bank_csv`'s aggregation loop and summary construction: one pass adds
the absolute effective amount of each record to the bucket matching its type
(`expense` and `owner_draw` share the expenses bucket); totals are rounded to
2 decimals only when the summary is built. -/
def buildSummary (txs : List Tx) : Summary where
  total_transactions := txs.length
  total_income := round2 (bucket (fun tx => tx.type = "income") txs)
  total_expenses :=
    round2 (bucket (fun tx => tx.type = "expense" ∨ tx.type = "owner_draw") txs)
  total_transfers := round2 (bucket (fun tx => tx.type = "transfer") txs)
  total_tax_refunds := round2 (bucket (fun tx => tx.type = "tax_refund") txs)
  expense_count := txs.countP fun tx => decide (tx.type = "expense")
  income_count := txs.countP fun tx => decide (tx.type = "income")
  transfer_count := txs.countP fun tx => decide (tx.type = "transfer")
  tax_refund_count := txs.countP fun tx => decide (tx.type = "tax_refund")
  account_currency := accountCurrency txs

/-- The type and category mandated by the first matching forced pattern of
`_post_ai_validation`, read off the cascade in its source order; `none` when no
pattern matches, or when the record is consumed by a tax-refund arm whose inner
positive-amount check fails (those arms mandate nothing). -/
def validatorMandate (tx : Tx) : Option (String × String) :=
  let d1 := lowerS tx.description1
  let d2 := lowerS tx.description2
  if substr "funds transfer" d1 || substr "funds transfer" d2 then
    some ("transfer", "transfer")
  else if substr "payment - thank you" d1 || substr "paiement - merci" d1
      || substr "payment - thank you" d2 then
    some ("transfer", "transfer")
  else if substr "online banking transfer" d1 then
    some ("transfer", "transfer")
  else if substr "credit memo" d1
      && (substr "exchange" d2 || substr "transfer" d2 || substr "client request" d2) then
    some ("transfer", "transfer")
  else if substr "cash withdrawal" d1 || substr "atm withdrawal" d1 then
    some ("owner_draw", "owner_draw")
  else if substr "debit memo" d1 && (substr "owner" d2 || substr "draw" d2) then
    some ("owner_draw", "owner_draw")
  else if anyKw gstKeywords d1 d2 then
    if 0 < effectiveAmount tx then some ("tax_refund", "tax_refund") else none
  else if substr "fed govt" d1 || substr "fed govt" d2 then
    if 0 < effectiveAmount tx then some ("tax_refund", "tax_refund") else none
  else if (substr "e-transfer" d1 || substr "autodeposit" d1) && anyName ownerNames d2 then
    if 0 < effectiveAmount tx then some ("transfer", "transfer")
    else some ("owner_draw", "owner_draw")
  else none

/-- The type and category assigned by the forced-override and tax-refund steps
of `_rule_based_categorize` (its first nine arms, in source order); `none` when
the record falls through to the income/expense steps. -/
def ruleForcedMandate (tx : Tx) : Option (String × String) :=
  let d1 := lowerS tx.description1
  let d2 := lowerS tx.description2
  let amount := effectiveAmount tx
  if substr "funds transfer" d1 || substr "funds transfer" d2 then
    some ("transfer", "transfer")
  else if substr "payment - thank you" d1 || substr "paiement - merci" d1 then
    some ("transfer", "transfer")
  else if substr "online banking transfer" d1 then
    some ("transfer", "transfer")
  else if substr "cash withdrawal" d1 || substr "atm withdrawal" d1 then
    some ("owner_draw", "owner_draw")
  else if substr "debit memo" d1 && (substr "owner" d2 || substr "draw" d2) then
    some ("owner_draw", "owner_draw")
  else if (substr "e-transfer" d1 || substr "autodeposit" d1) && anyName ownerNames d2 then
    if 0 < amount then some ("transfer", "transfer")
    else some ("owner_draw", "owner_draw")
  else if substr "credit memo" d1
      && (substr "exchange" d2 || substr "transfer" d2 || substr "client request" d2) then
    some ("transfer", "transfer")
  else if 0 < amount ∧ anyKw gstKeywords d1 d2 then
    some ("tax_refund", "tax_refund")
  else if 0 < amount ∧ (substr "fed govt" d1 || substr "fed govt" d2) then
    some ("tax_refund", "tax_refund")
  else none

/-! Concrete records used by the witnesses and counterexamples below. -/

/-- A funds-transfer line that also mentions a fuel brand. -/
def fundsFuelTx : Tx :=
  { description1 := "Funds Transfer", description2 := "SHELL 1234", amount_cad := some (-120) }

/-- A record matched by both the credit-memo pattern and the cash-withdrawal
pattern: the two cascades order them differently. -/
def memoWithdrawTx : Tx :=
  { description1 := "CREDIT MEMO CASH WITHDRAWAL", description2 := "EXCHANGE",
    amount_cad := some (-5), type := "expense" }

/-- A plain cash withdrawal the AI labelled an expense. -/
def cashWithdrawTx : Tx :=
  { description1 := "Cash Withdrawal", type := "expense", confidence := 0.99 }

/-- A cash withdrawal whose description also matches the funds-transfer
pattern. -/
def fundsWithdrawTx : Tx :=
  { description1 := "FUNDS TRANSFER CASH WITHDRAWAL", type := "expense", confidence := 0.9 }

/-- A positive GST-keyword line that is also a funds transfer. -/
def fundsGstTx : Tx :=
  { description1 := "Funds Transfer", description2 := "GST refund", amount_cad := some 50 }

/-- A plain positive GST-keyword deposit. -/
def gstDepositTx : Tx :=
  { description1 := "Deposit", description2 := "GST CANADA", amount_cad := some 50 }

/-- A credit-card bill payment marked only in the secondary description. -/
def visaPayTx : Tx :=
  { description1 := "VISA", description2 := "PAYMENT - THANK YOU", amount_cad := some (-500) }

/-- A credit-card bill payment marked in the primary description. -/
def payThanksTx : Tx :=
  { description1 := "PAYMENT - THANK YOU", amount_cad := some (-500) }

/-- An owner e-transfer with no amount at all that also matches the
funds-transfer pattern. -/
def etransferFundsTx : Tx :=
  { description1 := "INTERAC E-TRANSFER FUNDS TRANSFER", description2 := "OZAN BEKTAS",
    type := "expense" }

/-- An owner e-transfer with no amount at all. -/
def etransferOwnerTx : Tx :=
  { description1 := "INTERAC E-TRANSFER", description2 := "OZAN BEKTAS", type := "expense" }

/-- The four-record batch of the aggregation claim. -/
def incomeTx : Tx := { type := "income", amount_cad := some 100 }

/-- Expense record of the aggregation batch. -/
def expenseTx : Tx := { type := "expense", amount_cad := some (-40) }

/-- Transfer record of the aggregation batch. -/
def transferTx : Tx := { type := "transfer", amount_cad := some 25 }

/-- Tax-refund record of the aggregation batch. -/
def refundTx : Tx := { type := "tax_refund", amount_cad := some 10 }

/-- A record carrying only a USD amount. -/
def usdOnlyTx : Tx := { amount_usd := some 5 }

/-- A record carrying only a CAD amount. -/
def cadOnlyTx : Tx := { amount_cad := some 7 }

/-- An ATM withdrawal the AI labelled income. -/
def atmWithdrawTx : Tx := { description1 := "ATM WITHDRAWAL", type := "income" }

/-! Helper lemmas. -/

/-- Rounding an integer value is the identity. -/
theorem pyRound_intCast (n : ℤ) : pyRound (n : ℚ) = n := by
  unfold pyRound
  norm_num

/-- Rounding an integer value to two decimals is the identity. -/
theorem round2_intCast (n : ℤ) : round2 (n : ℚ) = n := by
  unfold round2
  have h : ((n : ℚ) * 100) = ((n * 100 : ℤ) : ℚ) := by push_cast; ring
  rw [h, pyRound_intCast]
  push_cast
  ring

/-- Rounding a natural value to two decimals is the identity. -/
theorem round2_natCast (n : ℕ) : round2 (n : ℚ) = n := by
  simpa using round2_intCast (n : ℤ)

/-- A bucket's running total is the sum of the absolute effective amounts of
the records passing its membership test. -/
theorem bucket_filter_sum (p : Tx → Prop) [DecidablePred p] (txs : List Tx) :
    bucket p txs
      = ((txs.filter fun tx => decide (p tx)).map fun tx => |effectiveAmount tx|).sum := by
  suffices h : ∀ (l : List Tx) (s : ℚ),
      l.foldl (fun s tx => if p tx then s + |effectiveAmount tx| else s) s
        = s + ((l.filter fun tx => decide (p tx)).map fun tx => |effectiveAmount tx|).sum by
    simpa [bucket] using h txs 0
  intro l
  induction l with
  | nil => simp
  | cons t ts ih =>
    intro s
    by_cases h : p t <;> simp [h, ih, List.filter_cons] <;> ring

/-- The trailing confidence assignment leaves the classified type unchanged. -/
theorem withRuleConf_type (tx : Tx) : (withRuleConf tx).type = tx.type := rfl

/-- The trailing confidence assignment leaves the category unchanged. -/
theorem withRuleConf_category (tx : Tx) : (withRuleConf tx).category = tx.category := rfl

/-- The post-AI validator is idempotent on a single record: each arm fires only
when the record's type differs from the mandated one, and firing establishes
exactly that type while leaving every field inspected by the arms unchanged. -/
theorem validateTx_idem (tx : Tx) : validateTx (validateTx tx) = validateTx tx := by
  by_cases h1 : (substr "funds transfer" (lowerS tx.description1)
      || substr "funds transfer" (lowerS tx.description2)) = true
  · by_cases ht : tx.type = "transfer" <;>
      simp [validateTx, effectiveAmount, h1, ht]
  · by_cases h2 : (substr "payment - thank you" (lowerS tx.description1)
        || substr "paiement - merci" (lowerS tx.description1)
        || substr "payment - thank you" (lowerS tx.description2)) = true
    · by_cases ht : tx.type = "transfer" <;>
        simp [validateTx, effectiveAmount, h1, h2, ht]
    · by_cases h3 : substr "online banking transfer" (lowerS tx.description1) = true
      · by_cases ht : tx.type = "transfer" <;>
          simp [validateTx, effectiveAmount, h1, h2, h3, ht]
      · by_cases h4 : (substr "credit memo" (lowerS tx.description1)
            && (substr "exchange" (lowerS tx.description2)
              || substr "transfer" (lowerS tx.description2)
              || substr "client request" (lowerS tx.description2))) = true
        · by_cases ht : tx.type = "transfer" <;>
            simp [validateTx, effectiveAmount, h1, h2, h3, h4, ht]
        · by_cases h5 : (substr "cash withdrawal" (lowerS tx.description1)
              || substr "atm withdrawal" (lowerS tx.description1)) = true
          · by_cases ht : tx.type = "owner_draw" <;>
              simp [validateTx, effectiveAmount, h1, h2, h3, h4, h5, ht]
          · by_cases h6 : (substr "debit memo" (lowerS tx.description1)
                && (substr "owner" (lowerS tx.description2)
                  || substr "draw" (lowerS tx.description2))) = true
            · by_cases ht : tx.type = "owner_draw" <;>
                simp [validateTx, effectiveAmount, h1, h2, h3, h4, h5, h6, ht]
            · by_cases h7 : anyKw gstKeywords (lowerS tx.description1)
                  (lowerS tx.description2) = true
              · by_cases hq : 0 < effAmount tx.amount_cad tx.amount_usd
                    ∧ tx.type ≠ "tax_refund" <;>
                  simp [validateTx, effectiveAmount, h1, h2, h3, h4, h5, h6, h7, hq]
              · by_cases h8 : (substr "fed govt" (lowerS tx.description1)
                    || substr "fed govt" (lowerS tx.description2)) = true
                · by_cases hq : 0 < effAmount tx.amount_cad tx.amount_usd
                      ∧ tx.type ≠ "tax_refund" <;>
                    simp [validateTx, effectiveAmount, h1, h2, h3, h4, h5, h6, h7, h8, hq]
                · by_cases h9 : ((substr "e-transfer" (lowerS tx.description1)
                      || substr "autodeposit" (lowerS tx.description1))
                      && anyName ownerNames (lowerS tx.description2)) = true
                  · by_cases hp : 0 < effAmount tx.amount_cad tx.amount_usd
                    · by_cases ht : tx.type = "transfer" <;>
                        simp [validateTx, effectiveAmount,
                          h1, h2, h3, h4, h5, h6, h7, h8, h9, hp, ht]
                    · by_cases ht : tx.type = "owner_draw" <;>
                        simp [validateTx, effectiveAmount,
                          h1, h2, h3, h4, h5, h6, h7, h8, h9, hp, ht]
                  · simp [validateTx, effectiveAmount, h1, h2, h3, h4, h5, h6, h7, h8, h9]

/-- C1: a record whose descriptions contain both a funds-transfer pattern and a
fuel-brand keyword is classified `transfer`/`transfer` by the rule-based
classifier, never `expense`/`fuel`: the forced-transfer arm is evaluated first
and the first matching arm wins. -/
theorem rule_funds_transfer_priority_over_fuel (tx : Tx)
    (hft : (substr "funds transfer" (lowerS tx.description1)
        || substr "funds transfer" (lowerS tx.description2)) = true)
    (hfuel : anyKw fuelKeywords (lowerS tx.description1) (lowerS tx.description2) = true) :
    (ruleTx tx).type = "transfer" ∧ (ruleTx tx).category = "transfer" := by
  simp [ruleTx, withRuleConf_type, withRuleConf_category, hft]

/-- Witness for C1 at a concrete funds-transfer line mentioning a fuel brand. -/
theorem rule_funds_transfer_priority_over_fuel_witness :
    (ruleTx fundsFuelTx).type = "transfer" ∧ (ruleTx fundsFuelTx).category = "transfer" :=
  rule_funds_transfer_priority_over_fuel fundsFuelTx (by decide) (by decide)

/-- C2: when the AI call raises or its response fails JSON parsing, the
categorization of the batch is exactly the rule-based categorization of that
batch; no partially merged AI fields survive. -/
theorem categorize_failure_falls_back (hasModel : Bool) (txs : List Tx) :
    categorize_transactions hasModel AiOutcome.failure txs = rule_based_categorize txs := by
  unfold categorize_transactions
  split <;> rfl

/-- C3: the post-AI validator is idempotent on every batch. -/
theorem post_ai_validation_idempotent (txs : List Tx) :
    post_ai_validation (post_ai_validation txs) = post_ai_validation txs := by
  unfold post_ai_validation
  rw [List.map_map]
  exact List.map_congr_left fun a _ => validateTx_idem a

/-- Soundness of the mandate reading of the validator cascade: whenever
`validatorMandate` yields a mandated type, the validator leaves the record
with exactly that type (either by overriding or because it already held). -/
theorem validatorMandate_type (tx : Tx) (t c : String)
    (h : validatorMandate tx = some (t, c)) : (validateTx tx).type = t := by
  by_cases h1 : (substr "funds transfer" (lowerS tx.description1)
      || substr "funds transfer" (lowerS tx.description2)) = true
  · simp [validatorMandate, h1] at h
    obtain ⟨rfl, rfl⟩ := h
    by_cases ht : tx.type = "transfer" <;> simp [validateTx, h1, ht]
  · by_cases h2 : (substr "payment - thank you" (lowerS tx.description1)
        || substr "paiement - merci" (lowerS tx.description1)
        || substr "payment - thank you" (lowerS tx.description2)) = true
    · simp [validatorMandate, h1, h2] at h
      obtain ⟨rfl, rfl⟩ := h
      by_cases ht : tx.type = "transfer" <;> simp [validateTx, h1, h2, ht]
    · by_cases h3 : substr "online banking transfer" (lowerS tx.description1) = true
      · simp [validatorMandate, h1, h2, h3] at h
        obtain ⟨rfl, rfl⟩ := h
        by_cases ht : tx.type = "transfer" <;> simp [validateTx, h1, h2, h3, ht]
      · by_cases h4 : (substr "credit memo" (lowerS tx.description1)
            && (substr "exchange" (lowerS tx.description2)
              || substr "transfer" (lowerS tx.description2)
              || substr "client request" (lowerS tx.description2))) = true
        · simp [validatorMandate, h1, h2, h3, h4] at h
          obtain ⟨rfl, rfl⟩ := h
          by_cases ht : tx.type = "transfer" <;> simp [validateTx, h1, h2, h3, h4, ht]
        · by_cases h5 : (substr "cash withdrawal" (lowerS tx.description1)
              || substr "atm withdrawal" (lowerS tx.description1)) = true
          · simp [validatorMandate, h1, h2, h3, h4, h5] at h
            obtain ⟨rfl, rfl⟩ := h
            by_cases ht : tx.type = "owner_draw" <;>
              simp [validateTx, h1, h2, h3, h4, h5, ht]
          · by_cases h6 : (substr "debit memo" (lowerS tx.description1)
                && (substr "owner" (lowerS tx.description2)
                  || substr "draw" (lowerS tx.description2))) = true
            · simp [validatorMandate, h1, h2, h3, h4, h5, h6] at h
              obtain ⟨rfl, rfl⟩ := h
              by_cases ht : tx.type = "owner_draw" <;>
                simp [validateTx, h1, h2, h3, h4, h5, h6, ht]
            · by_cases h7 : anyKw gstKeywords (lowerS tx.description1)
                  (lowerS tx.description2) = true
              · by_cases hq : 0 < effectiveAmount tx
                · simp [validatorMandate, h1, h2, h3, h4, h5, h6, h7, hq] at h
                  obtain ⟨rfl, rfl⟩ := h
                  by_cases ht : tx.type = "tax_refund" <;>
                    simp [validateTx, h1, h2, h3, h4, h5, h6, h7, hq, ht]
                · simp [validatorMandate, h1, h2, h3, h4, h5, h6, h7, hq] at h
              · by_cases h8 : (substr "fed govt" (lowerS tx.description1)
                    || substr "fed govt" (lowerS tx.description2)) = true
                · by_cases hq : 0 < effectiveAmount tx
                  · simp [validatorMandate, h1, h2, h3, h4, h5, h6, h7, h8, hq] at h
                    obtain ⟨rfl, rfl⟩ := h
                    by_cases ht : tx.type = "tax_refund" <;>
                      simp [validateTx, h1, h2, h3, h4, h5, h6, h7, h8, hq, ht]
                  · simp [validatorMandate, h1, h2, h3, h4, h5, h6, h7, h8, hq] at h
                · by_cases h9 : ((substr "e-transfer" (lowerS tx.description1)
                      || substr "autodeposit" (lowerS tx.description1))
                      && anyName ownerNames (lowerS tx.description2)) = true
                  · by_cases hq : 0 < effectiveAmount tx
                    · simp [validatorMandate, h1, h2, h3, h4, h5, h6, h7, h8, h9, hq] at h
                      obtain ⟨rfl, rfl⟩ := h
                      by_cases ht : tx.type = "transfer" <;>
                        simp [validateTx, h1, h2, h3, h4, h5, h6, h7, h8, h9, hq, ht]
                    · simp [validatorMandate, h1, h2, h3, h4, h5, h6, h7, h8, h9, hq] at h
                      obtain ⟨rfl, rfl⟩ := h
                      by_cases ht : tx.type = "owner_draw" <;>
                        simp [validateTx, h1, h2, h3, h4, h5, h6, h7, h8, h9, hq, ht]
                  · simp [validatorMandate, h1, h2, h3, h4, h5, h6, h7, h8, h9] at h

/-- Soundness of the mandate reading of the rule-based forced steps: whenever
`ruleForcedMandate` yields a type and category, the rule-based classifier
assigns exactly them. -/
theorem ruleForcedMandate_type (tx : Tx) (t c : String)
    (h : ruleForcedMandate tx = some (t, c)) :
    (ruleTx tx).type = t ∧ (ruleTx tx).category = c := by
  by_cases h1 : (substr "funds transfer" (lowerS tx.description1)
      || substr "funds transfer" (lowerS tx.description2)) = true
  · simp [ruleForcedMandate, h1] at h
    obtain ⟨rfl, rfl⟩ := h
    simp [ruleTx, withRuleConf_type, withRuleConf_category, h1]
  · by_cases h2 : (substr "payment - thank you" (lowerS tx.description1)
        || substr "paiement - merci" (lowerS tx.description1)) = true
    · simp [ruleForcedMandate, h1, h2] at h
      obtain ⟨rfl, rfl⟩ := h
      simp [ruleTx, withRuleConf_type, withRuleConf_category, h1, h2]
    · by_cases h3 : substr "online banking transfer" (lowerS tx.description1) = true
      · simp [ruleForcedMandate, h1, h2, h3] at h
        obtain ⟨rfl, rfl⟩ := h
        simp [ruleTx, withRuleConf_type, withRuleConf_category, h1, h2, h3]
      · by_cases h4 : (substr "cash withdrawal" (lowerS tx.description1)
            || substr "atm withdrawal" (lowerS tx.description1)) = true
        · simp [ruleForcedMandate, h1, h2, h3, h4] at h
          obtain ⟨rfl, rfl⟩ := h
          simp [ruleTx, withRuleConf_type, withRuleConf_category, h1, h2, h3, h4]
        · by_cases h5 : (substr "debit memo" (lowerS tx.description1)
              && (substr "owner" (lowerS tx.description2)
                || substr "draw" (lowerS tx.description2))) = true
          · simp [ruleForcedMandate, h1, h2, h3, h4, h5] at h
            obtain ⟨rfl, rfl⟩ := h
            simp [ruleTx, withRuleConf_type, withRuleConf_category, h1, h2, h3, h4, h5]
          · by_cases h6 : ((substr "e-transfer" (lowerS tx.description1)
                || substr "autodeposit" (lowerS tx.description1))
                && anyName ownerNames (lowerS tx.description2)) = true
            · by_cases hq : 0 < effectiveAmount tx
              · simp [ruleForcedMandate, h1, h2, h3, h4, h5, h6, hq] at h
                obtain ⟨rfl, rfl⟩ := h
                simp [ruleTx, withRuleConf_type, withRuleConf_category,
                  h1, h2, h3, h4, h5, h6, hq]
              · simp [ruleForcedMandate, h1, h2, h3, h4, h5, h6, hq] at h
                obtain ⟨rfl, rfl⟩ := h
                simp [ruleTx, withRuleConf_type, withRuleConf_category,
                  h1, h2, h3, h4, h5, h6, hq]
            · by_cases h7 : (substr "credit memo" (lowerS tx.description1)
                  && (substr "exchange" (lowerS tx.description2)
                    || substr "transfer" (lowerS tx.description2)
                    || substr "client request" (lowerS tx.description2))) = true
              · simp [ruleForcedMandate, h1, h2, h3, h4, h5, h6, h7] at h
                obtain ⟨rfl, rfl⟩ := h
                simp [ruleTx, withRuleConf_type, withRuleConf_category,
                  h1, h2, h3, h4, h5, h6, h7]
              · by_cases hpos : 0 < effectiveAmount tx
                · by_cases hkw : anyKw gstKeywords (lowerS tx.description1)
                      (lowerS tx.description2) = true
                  · simp [ruleForcedMandate, h1, h2, h3, h4, h5, h6, h7, hpos, hkw] at h
                    obtain ⟨rfl, rfl⟩ := h
                    simp [ruleTx, withRuleConf_type, withRuleConf_category,
                      h1, h2, h3, h4, h5, h6, h7, hpos, hkw]
                  · by_cases hfed : (substr "fed govt" (lowerS tx.description1)
                        || substr "fed govt" (lowerS tx.description2)) = true
                    · simp [ruleForcedMandate,
                        h1, h2, h3, h4, h5, h6, h7, hpos, hkw, hfed] at h
                      obtain ⟨rfl, rfl⟩ := h
                      simp [ruleTx, withRuleConf_type, withRuleConf_category,
                        h1, h2, h3, h4, h5, h6, h7, hpos, hkw, hfed]
                    · simp [ruleForcedMandate,
                        h1, h2, h3, h4, h5, h6, h7, hpos, hkw, hfed] at h
                · simp [ruleForcedMandate, h1, h2, h3, h4, h5, h6, h7, hpos] at h

/-- C4 counterexample: a record matched by both the credit-memo and the
cash-withdrawal patterns; the validator's first matching forced pattern
(credit memo, 4th in its cascade) mandates transfer, while the rule-based
forced steps (where cash withdrawal comes before credit memo) assign
owner_draw. -/
theorem validator_rule_mandate_mismatch :
    (validateTx memoWithdrawTx).type = "transfer"
      ∧ (ruleTx memoWithdrawTx).type = "owner_draw"
      ∧ validatorMandate memoWithdrawTx ≠ ruleForcedMandate memoWithdrawTx := by
  decide

/-- C4 (amended): the validator's forced cascade and the rule-based
classifier's forced and tax-refund steps mandate the same type and category on
every record that does not contain "credit memo" in its primary description,
does not carry "payment - thank you" in its secondary description, does not
match the owner e-transfer pattern, and whose tax-refund keywords (if any)
come with a positive effective amount. -/
theorem validator_mandate_matches_rule_forced (tx : Tx)
    (hcm : substr "credit memo" (lowerS tx.description1) = false)
    (hp2 : substr "payment - thank you" (lowerS tx.description2) = false)
    (het : ((substr "e-transfer" (lowerS tx.description1)
        || substr "autodeposit" (lowerS tx.description1))
        && anyName ownerNames (lowerS tx.description2)) = false)
    (hgst : anyKw gstKeywords (lowerS tx.description1) (lowerS tx.description2) = true
        → 0 < effectiveAmount tx)
    (hfed : (substr "fed govt" (lowerS tx.description1)
        || substr "fed govt" (lowerS tx.description2)) = true
        → 0 < effectiveAmount tx) :
    validatorMandate tx = ruleForcedMandate tx := by
  by_cases b1 : (substr "funds transfer" (lowerS tx.description1)
      || substr "funds transfer" (lowerS tx.description2)) = true
  · simp [validatorMandate, ruleForcedMandate, b1]
  · by_cases b2 : (substr "payment - thank you" (lowerS tx.description1)
        || substr "paiement - merci" (lowerS tx.description1)) = true
    · simp [validatorMandate, ruleForcedMandate, b1, b2, hp2]
    · by_cases b3 : substr "online banking transfer" (lowerS tx.description1) = true
      · simp [validatorMandate, ruleForcedMandate, b1, b2, b3, hp2]
      · by_cases b4 : (substr "cash withdrawal" (lowerS tx.description1)
            || substr "atm withdrawal" (lowerS tx.description1)) = true
        · simp [validatorMandate, ruleForcedMandate, b1, b2, b3, b4, hcm, hp2]
        · by_cases b5 : (substr "debit memo" (lowerS tx.description1)
              && (substr "owner" (lowerS tx.description2)
                || substr "draw" (lowerS tx.description2))) = true
          · simp [validatorMandate, ruleForcedMandate, b1, b2, b3, b4, b5, hcm, hp2]
          · by_cases b7 : anyKw gstKeywords (lowerS tx.description1)
                (lowerS tx.description2) = true
            · have hga := hgst b7
              simp [validatorMandate, ruleForcedMandate,
                b1, b2, b3, b4, b5, b7, hcm, hp2, het, hga]
            · by_cases b8 : (substr "fed govt" (lowerS tx.description1)
                  || substr "fed govt" (lowerS tx.description2)) = true
              · have hfa := hfed b8
                simp [validatorMandate, ruleForcedMandate,
                  b1, b2, b3, b4, b5, b7, b8, hcm, hp2, het, hfa]
              · simp [validatorMandate, ruleForcedMandate,
                  b1, b2, b3, b4, b5, b7, b8, hcm, hp2, het]

/-- Witness for amended C4 at a concrete ATM withdrawal: both cascades
mandate owner_draw. -/
theorem validator_mandate_matches_rule_forced_witness :
    validatorMandate atmWithdrawTx = ruleForcedMandate atmWithdrawTx :=
  validator_mandate_matches_rule_forced atmWithdrawTx (by decide) (by decide) (by decide)
    (fun h => absurd h (by decide)) (fun h => absurd h (by decide))

/-- C5 counterexample: a record of type expense whose primary description
contains "cash withdrawal" but also matches the higher-priority funds-transfer
pattern; after validation its type is transfer, not owner_draw. -/
theorem cash_withdrawal_override_counterexample :
    fundsWithdrawTx.type = "expense"
      ∧ substr "cash withdrawal" (lowerS fundsWithdrawTx.description1) = true
      ∧ (validateTx fundsWithdrawTx).type ≠ "owner_draw"
      ∧ (validateTx fundsWithdrawTx).type = "transfer" := by
  decide

/-- C5 (amended): a record of type expense whose primary description contains
"cash withdrawal", and which matches none of the four higher-priority forced
patterns (funds transfer, credit-card payment, online banking transfer,
qualified credit memo), leaves `_post_ai_validation` with type and category
owner_draw, regardless of its confidence value. -/
theorem cash_withdrawal_override (tx : Tx)
    (hty : tx.type = "expense")
    (hcw : substr "cash withdrawal" (lowerS tx.description1) = true)
    (n1 : (substr "funds transfer" (lowerS tx.description1)
        || substr "funds transfer" (lowerS tx.description2)) = false)
    (n2 : (substr "payment - thank you" (lowerS tx.description1)
        || substr "paiement - merci" (lowerS tx.description1)
        || substr "payment - thank you" (lowerS tx.description2)) = false)
    (n3 : substr "online banking transfer" (lowerS tx.description1) = false)
    (n4 : (substr "credit memo" (lowerS tx.description1)
        && (substr "exchange" (lowerS tx.description2)
          || substr "transfer" (lowerS tx.description2)
          || substr "client request" (lowerS tx.description2))) = false) :
    (validateTx tx).type = "owner_draw" ∧ (validateTx tx).category = "owner_draw" := by
  simp [validateTx, n1, n2, n3, n4, hcw, hty]

/-- Witness for amended C5 at a concrete cash withdrawal with confidence
0.99. -/
theorem cash_withdrawal_override_witness :
    (validateTx cashWithdrawTx).type = "owner_draw"
      ∧ (validateTx cashWithdrawTx).category = "owner_draw" :=
  cash_withdrawal_override cashWithdrawTx (by decide) (by decide) (by decide) (by decide)
    (by decide) (by decide)

/-- C6 counterexample: a positive-amount record carrying a GST keyword that
also matches the higher-priority funds-transfer pattern is classified
transfer, not tax_refund. -/
theorem tax_refund_keyword_counterexample :
    0 < effectiveAmount fundsGstTx
      ∧ anyKw gstKeywords (lowerS fundsGstTx.description1)
          (lowerS fundsGstTx.description2) = true
      ∧ (ruleTx fundsGstTx).type ≠ "tax_refund"
      ∧ (ruleTx fundsGstTx).type = "transfer" := by
  decide

/-- C6 (amended): on records matched by none of the rule-based classifier's
forced-override patterns, tax-refund reclassification applies exactly to
positive effective amounts: with a tax keyword and positive amount the type is
tax_refund; with a tax keyword and negative amount the record instead lands in
the expense branch (type expense, never tax_refund), where
"commercial taxes"/"emptx" map to other_expenses provided no earlier expense
pattern (auto insurance/ICBC, CAFO insurance, payroll) matches. -/
theorem tax_refund_positive_only (tx : Tx)
    (hkw : (anyKw gstKeywords (lowerS tx.description1) (lowerS tx.description2)
        || substr "fed govt" (lowerS tx.description1)
        || substr "fed govt" (lowerS tx.description2)) = true)
    (e1 : (substr "funds transfer" (lowerS tx.description1)
        || substr "funds transfer" (lowerS tx.description2)) = false)
    (e2 : (substr "payment - thank you" (lowerS tx.description1)
        || substr "paiement - merci" (lowerS tx.description1)) = false)
    (e3 : substr "online banking transfer" (lowerS tx.description1) = false)
    (e4 : (substr "cash withdrawal" (lowerS tx.description1)
        || substr "atm withdrawal" (lowerS tx.description1)) = false)
    (e5 : (substr "debit memo" (lowerS tx.description1)
        && (substr "owner" (lowerS tx.description2)
          || substr "draw" (lowerS tx.description2))) = false)
    (e6 : ((substr "e-transfer" (lowerS tx.description1)
        || substr "autodeposit" (lowerS tx.description1))
        && anyName ownerNames (lowerS tx.description2)) = false)
    (e7 : (substr "credit memo" (lowerS tx.description1)
        && (substr "exchange" (lowerS tx.description2)
          || substr "transfer" (lowerS tx.description2)
          || substr "client request" (lowerS tx.description2))) = false) :
    (0 < effectiveAmount tx →
        (ruleTx tx).type = "tax_refund" ∧ (ruleTx tx).category = "tax_refund")
    ∧ (effectiveAmount tx < 0 →
        (ruleTx tx).type = "expense" ∧ (ruleTx tx).type ≠ "tax_refund"
        ∧ ((substr "commercial taxes" (lowerS tx.description1)
              || substr "emptx" (lowerS tx.description2)) = true →
            (substr "auto insurance" (lowerS tx.description1)
              || substr "icbc" (lowerS tx.description2)) = false →
            (substr "insurance" (lowerS tx.description1)
              && substr "cafo" (lowerS tx.description2)) = false →
            (substr "direct deposits" (lowerS tx.description1)
              || substr "pay emp" (lowerS tx.description2)) = false →
            (ruleTx tx).category = "other_expenses")) := by
  constructor
  · intro hpos
    by_cases bg : anyKw gstKeywords (lowerS tx.description1) (lowerS tx.description2) = true
    · simp [ruleTx, withRuleConf_type, withRuleConf_category,
        e1, e2, e3, e4, e5, e6, e7, bg, hpos]
    · simp only [bg, Bool.false_or] at hkw
      simp [ruleTx, withRuleConf_type, withRuleConf_category,
        e1, e2, e3, e4, e5, e6, e7, bg, hkw, hpos]
  · intro hneg
    have hnp : ¬(0 < effectiveAmount tx) := not_lt.mpr hneg.le
    refine ⟨?_, ?_, ?_⟩
    · simp [ruleTx, withRuleConf_type, apply_ite Tx.type,
        e1, e2, e3, e4, e5, e6, e7, hnp]
    · simp [ruleTx, withRuleConf_type, apply_ite Tx.type,
        e1, e2, e3, e4, e5, e6, e7, hnp]
    · intro hct hx1 hx2 hx3
      simp [ruleTx, withRuleConf_category, apply_ite Tx.category,
        e1, e2, e3, e4, e5, e6, e7, hnp, hct, hx1, hx2, hx3]

/-- Witness for amended C6 at a concrete positive GST deposit. -/
theorem tax_refund_positive_only_witness :
    (0 < effectiveAmount gstDepositTx →
        (ruleTx gstDepositTx).type = "tax_refund"
          ∧ (ruleTx gstDepositTx).category = "tax_refund")
    ∧ (effectiveAmount gstDepositTx < 0 →
        (ruleTx gstDepositTx).type = "expense"
          ∧ (ruleTx gstDepositTx).type ≠ "tax_refund"
          ∧ ((substr "commercial taxes" (lowerS gstDepositTx.description1)
                || substr "emptx" (lowerS gstDepositTx.description2)) = true →
              (substr "auto insurance" (lowerS gstDepositTx.description1)
                || substr "icbc" (lowerS gstDepositTx.description2)) = false →
              (substr "insurance" (lowerS gstDepositTx.description1)
                && substr "cafo" (lowerS gstDepositTx.description2)) = false →
              (substr "direct deposits" (lowerS gstDepositTx.description1)
                || substr "pay emp" (lowerS gstDepositTx.description2)) = false →
              (ruleTx gstDepositTx).category = "other_expenses")) :=
  tax_refund_positive_only gstDepositTx (by decide) (by decide) (by decide) (by decide)
    (by decide) (by decide) (by decide) (by decide)

/-- C7 counterexample: a record carrying "payment - thank you" only in its
secondary description is not classified transfer by the rule-based classifier
(that cascade checks only the primary description). -/
theorem credit_card_payment_counterexample :
    substr "payment - thank you" (lowerS visaPayTx.description2) = true
      ∧ (ruleTx visaPayTx).type ≠ "transfer"
      ∧ (ruleTx visaPayTx).type = "expense" := by
  decide

/-- C7 (amended): the rule-based classifier classifies a record as
transfer/transfer when "payment - thank you" or "paiement - merci" appears in
its primary description (and the higher-priority funds-transfer pattern does
not match); the either-field check exists only in the post-AI validator. -/
theorem credit_card_payment_primary_desc (tx : Tx)
    (n1 : (substr "funds transfer" (lowerS tx.description1)
        || substr "funds transfer" (lowerS tx.description2)) = false)
    (hp : (substr "payment - thank you" (lowerS tx.description1)
        || substr "paiement - merci" (lowerS tx.description1)) = true) :
    (ruleTx tx).type = "transfer" ∧ (ruleTx tx).category = "transfer" := by
  simp [ruleTx, withRuleConf_type, withRuleConf_category, n1, hp]

/-- Witness for amended C7 at a concrete credit-card payment line. -/
theorem credit_card_payment_primary_desc_witness :
    (ruleTx payThanksTx).type = "transfer" ∧ (ruleTx payThanksTx).category = "transfer" :=
  credit_card_payment_primary_desc payThanksTx (by decide) (by decide)

/-- C8: the batch summary adds each record's absolute effective amount to the
bucket of its type — expense and owner_draw both accumulate into
total_expenses, tax_refund has its own bucket separate from total_income — and
each total is rounded to two decimals only at the output boundary; in
particular the batch (income 100, expense -40, transfer 25, tax_refund 10)
reports totals 100, 40, 25, 10. -/
theorem aggregation_buckets :
    (∀ txs : List Tx,
      (buildSummary txs).total_income
          = round2 (((txs.filter fun tx => decide (tx.type = "income")).map
              fun tx => |effectiveAmount tx|).sum)
        ∧ (buildSummary txs).total_expenses
          = round2 (((txs.filter fun tx =>
                decide (tx.type = "expense" ∨ tx.type = "owner_draw")).map
              fun tx => |effectiveAmount tx|).sum)
        ∧ (buildSummary txs).total_transfers
          = round2 (((txs.filter fun tx => decide (tx.type = "transfer")).map
              fun tx => |effectiveAmount tx|).sum)
        ∧ (buildSummary txs).total_tax_refunds
          = round2 (((txs.filter fun tx => decide (tx.type = "tax_refund")).map
              fun tx => |effectiveAmount tx|).sum))
    ∧ ((buildSummary [incomeTx, expenseTx, transferTx, refundTx]).total_income = 100
        ∧ (buildSummary [incomeTx, expenseTx, transferTx, refundTx]).total_expenses = 40
        ∧ (buildSummary [incomeTx, expenseTx, transferTx, refundTx]).total_transfers = 25
        ∧ (buildSummary [incomeTx, expenseTx, transferTx, refundTx]).total_tax_refunds = 10) := by
  constructor
  · intro txs
    refine ⟨?_, ?_, ?_, ?_⟩ <;> simp [buildSummary, bucket_filter_sum]
  · have r100 := round2_natCast 100
    have r40 := round2_natCast 40
    have r25 := round2_natCast 25
    have r10 := round2_natCast 10
    norm_num at r100 r40 r25 r10
    refine ⟨?_, ?_, ?_, ?_⟩ <;>
      · simp [buildSummary, bucket, incomeTx, expenseTx, transferTx, refundTx,
          effectiveAmount, effAmount, truthy]
        norm_num [r100, r40, r25, r10]

/-- C9: account-currency detection over the whole batch: only nonzero USD
amounts yields USD (not MIXED); nonzero amounts in both columns yields MIXED;
only nonzero CAD amounts yields CAD. -/
theorem currency_detection (txs : List Tx) :
    (hasNonzeroUsd txs = true → hasNonzeroCad txs = false →
        (buildSummary txs).account_currency = "USD")
    ∧ (hasNonzeroCad txs = true → hasNonzeroUsd txs = true →
        (buildSummary txs).account_currency = "MIXED")
    ∧ (hasNonzeroCad txs = true → hasNonzeroUsd txs = false →
        (buildSummary txs).account_currency = "CAD") := by
  refine ⟨fun hu hc => ?_, fun hc hu => ?_, fun hc hu => ?_⟩ <;>
    simp [buildSummary, accountCurrency, hu, hc]

/-- Witness for C9 at three concrete batches: USD-only, mixed, CAD-only. -/
theorem currency_detection_witness :
    (buildSummary [usdOnlyTx]).account_currency = "USD"
      ∧ (buildSummary [usdOnlyTx, cadOnlyTx]).account_currency = "MIXED"
      ∧ (buildSummary [cadOnlyTx]).account_currency = "CAD" :=
  ⟨(currency_detection [usdOnlyTx]).1 (by decide) (by decide),
   (currency_detection [usdOnlyTx, cadOnlyTx]).2.1 (by decide) (by decide),
   (currency_detection [cadOnlyTx]).2.2 (by decide) (by decide)⟩

/-- C10 counterexample: a no-amount owner e-transfer that also matches the
higher-priority funds-transfer pattern is classified transfer by both the
rule-based classifier and the validator, not owner_draw. -/
theorem owner_etransfer_zero_counterexample :
    substr "e-transfer" (lowerS etransferFundsTx.description1) = true
      ∧ anyName ownerNames (lowerS etransferFundsTx.description2) = true
      ∧ etransferFundsTx.amount_cad = none ∧ etransferFundsTx.amount_usd = none
      ∧ (ruleTx etransferFundsTx).type = "transfer"
      ∧ (validateTx etransferFundsTx).type = "transfer" := by
  decide

/-- C10 (amended): an owner e-transfer whose amounts are absent or zero is
treated like a negative amount — both the rule-based classifier and the post-AI
validator assign owner_draw — provided no higher-priority pattern of the
respective cascade (funds transfer, credit-card payment, online banking
transfer, cash/ATM withdrawal, owner debit memo, qualified credit memo,
tax-refund keywords) matches the record. -/
theorem owner_etransfer_zero_amount_owner_draw (tx : Tx)
    (he : (substr "e-transfer" (lowerS tx.description1)
        || substr "autodeposit" (lowerS tx.description1)) = true)
    (hn : anyName ownerNames (lowerS tx.description2) = true)
    (hzc : tx.amount_cad.getD 0 = 0) (hzu : tx.amount_usd.getD 0 = 0)
    (x1 : (substr "funds transfer" (lowerS tx.description1)
        || substr "funds transfer" (lowerS tx.description2)) = false)
    (x2 : (substr "payment - thank you" (lowerS tx.description1)
        || substr "paiement - merci" (lowerS tx.description1)
        || substr "payment - thank you" (lowerS tx.description2)) = false)
    (x3 : substr "online banking transfer" (lowerS tx.description1) = false)
    (x4 : (substr "cash withdrawal" (lowerS tx.description1)
        || substr "atm withdrawal" (lowerS tx.description1)) = false)
    (x5 : (substr "debit memo" (lowerS tx.description1)
        && (substr "owner" (lowerS tx.description2)
          || substr "draw" (lowerS tx.description2))) = false)
    (x6 : (substr "credit memo" (lowerS tx.description1)
        && (substr "exchange" (lowerS tx.description2)
          || substr "transfer" (lowerS tx.description2)
          || substr "client request" (lowerS tx.description2))) = false)
    (x7 : anyKw gstKeywords (lowerS tx.description1) (lowerS tx.description2) = false)
    (x8 : (substr "fed govt" (lowerS tx.description1)
        || substr "fed govt" (lowerS tx.description2)) = false) :
    (ruleTx tx).type = "owner_draw" ∧ (validateTx tx).type = "owner_draw" := by
  have hz : effAmount tx.amount_cad tx.amount_usd = 0 := by
    rcases hc : tx.amount_cad with _ | c <;> rcases hu : tx.amount_usd with _ | u <;>
      simp_all [effAmount, truthy, Option.getD]
  have hnp : ¬(0 < effectiveAmount tx) := by
    unfold effectiveAmount
    rw [hz]
    exact lt_irrefl 0
  have hx2 : (substr "payment - thank you" (lowerS tx.description1)
      || substr "paiement - merci" (lowerS tx.description1)) = false := by
    rcases Bool.or_eq_false_iff.mp x2 with ⟨hab, _⟩
    exact hab
  constructor
  · simp [ruleTx, withRuleConf_type, x1, hx2, x3, x4, x5, he, hn, hnp]
  · by_cases hty : tx.type = "owner_draw" <;>
      simp [validateTx, x1, x2, x3, x4, x5, x6, x7, x8, he, hn, hnp, hty]

/-- Witness for amended C10 at a concrete owner e-transfer with no amounts. -/
theorem owner_etransfer_zero_amount_owner_draw_witness :
    (ruleTx etransferOwnerTx).type = "owner_draw"
      ∧ (validateTx etransferOwnerTx).type = "owner_draw" :=
  owner_etransfer_zero_amount_owner_draw etransferOwnerTx (by decide) (by decide)
    (by decide) (by decide) (by decide) (by decide) (by decide) (by decide)
    (by decide) (by decide) (by decide) (by decide)

end BankImport
